import Mathlib

/-!
A shallow embedding of the Joplin `Synchronizer` (packages/lib/Synchronizer.ts,
shown in this repository inside `src/packages/app-desktop/gui/Root.tsx`) and
proofs about its three-phase sync protocol.

External collaborators (File API, Item Store, Lock Handler, Item Uploader,
Download Queue) are modelled as environment records supplying the outcome of
each call the orchestrator makes; the orchestration logic itself — action
decision, error classification, state transitions, done-path bookkeeping,
delta-context persistence — is translated directly from the source.
-/

namespace Joplin

/-- `JoplinError` (JoplinError.ts): an error with a `message`, a `code`, and —
for fetch errors — a `type` field (`error.type` in `isCannotSyncError`). -/
structure JError where
  message : String
  code : String
  etype : String
  deriving Repr, DecidableEq

/-- JS `msg.includes(pat)`: `pat` occurs as a contiguous substring of `msg`. -/
def stringIncludes (msg pat : String) : Bool :=
  decide (List.IsInfix pat.toList msg.toList)

/-- `isCannotSyncError(error)` (Synchronizer.ts): rejectedByTarget /
fileNotFound codes, request timeouts, and network-timeout messages. -/
def isCannotSyncError (e : JError) : Bool :=
  e.code = "rejectedByTarget" || e.code = "fileNotFound" ||
  e.etype = "request-timeout" || stringIncludes e.message "network timeout"

/-- `BaseModel.TYPE_NOTE`. -/
def TYPE_NOTE : Nat := 1
/-- `BaseModel.TYPE_FOLDER`. -/
def TYPE_FOLDER : Nat := 2
/-- `BaseModel.TYPE_RESOURCE`. -/
def TYPE_RESOURCE : Nat := 4
/-- `BaseModel.TYPE_MASTER_KEY`. -/
def TYPE_MASTER_KEY : Nat := 9
/-- `BaseModel.TYPE_REVISION`. -/
def TYPE_REVISION : Nat := 13

/-- `Resource.FETCH_STATUS_IDLE`. -/
def FETCH_STATUS_IDLE : Nat := 0
/-- `Resource.FETCH_STATUS_STARTED`. -/
def FETCH_STATUS_STARTED : Nat := 1
/-- `Resource.FETCH_STATUS_DONE`. -/
def FETCH_STATUS_DONE : Nat := 2
/-- `Resource.FETCH_STATUS_ERROR`. -/
def FETCH_STATUS_ERROR : Nat := 3

/-- A local item row (notes, folders, resources, ...): the fields of the
`local` variable that the UPLOAD loop reads. `sync_time` is the per-target
sync time joined in by `itemsThatNeedSync`; `size` and `title` matter for
Resources only. -/
structure LocalItem where
  id : String
  type_ : Nat
  sync_time : Nat
  updated_time : Nat
  created_time : Nat
  user_updated_time : Nat
  user_created_time : Nat
  encryption_applied : Bool
  size : Nat
  title : String
  share_id : String
  deriving Repr, DecidableEq

/-- `RemoteItem` (Synchronizer.ts interface): what `stat`/`delta` return. -/
structure RemoteItem where
  id : String
  path : String
  type_ : Nat
  isDeleted : Bool
  updated_time : Nat
  jop_updated_time : Option Nat
  deriving Repr, DecidableEq

/-- `lockErrorStatus_()`: `hasExclusiveLock` when an Exclusive lock is active,
`syncLockGone` when this client's Sync lock is no longer active, else `""`.
The two `hasActiveLock` calls are environment inputs. -/
def lockErrorStatus_ (hasActiveExclusiveLock : Bool) (hasActiveSyncLock : Bool) : String :=
  if hasActiveExclusiveLock then "hasExclusiveLock"
  else if !hasActiveSyncLock then "syncLockGone"
  else ""

/-- `apiCall(fnName, ...)`: fails fast with `lockError` when
`syncTargetIsLocked_`; otherwise forwards the underlying call's outcome,
re-wrapping an error as `lockError` when `lockErrorStatus_()` is non-empty. -/
def apiCall (syncTargetIsLocked : Bool) (callResult : Except JError String)
    (hasActiveExclusiveLock : Bool) (hasActiveSyncLock : Bool) : Except JError String :=
  if syncTargetIsLocked then
    Except.error { message := "Sync target is locked - aborting API call",
                   code := "lockError", etype := "" }
  else
    match callResult with
    | Except.ok output => Except.ok output
    | Except.error e =>
      let lockStatus := lockErrorStatus_ hasActiveExclusiveLock hasActiveSyncLock
      if lockStatus ≠ "" then
        Except.error { message := "Sync target lock error: " ++ lockStatus ++
                         ". Original error was: " ++ e.message,
                       code := "lockError", etype := "" }
      else
        Except.error e

/-- The guard at the top of `start()`: from a non-`idle` state the call throws
`alreadyStarted`; from `idle` the state becomes `in_progress`. -/
def startEntry (state0 : String) : Except JError String :=
  if state0 ≠ "idle" then
    Except.error { message := "Synchronisation is already in progress. State: " ++ state0,
                   code := "alreadyStarted", etype := "" }
  else
    Except.ok "in_progress"

/-- `maxResourceSize()`: the `maxResourceSize_` override when set, else
100 MB on mobile and `Infinity` (modelled as `none`) elsewhere. -/
def maxResourceSize (maxResourceSizeOverride : Option Nat) (appType : String) : Option Nat :=
  match maxResourceSizeOverride with
  | some v => some v
  | none => if appType = "mobile" then some (100 * 1000 * 1000) else none

/-- The JS comparison `content.size >= this.maxResourceSize()`: false against
`Infinity` (`none`) for any finite size. -/
def sizeReachesLimit (size : Nat) (limit : Option Nat) : Bool :=
  match limit with
  | some m => size ≥ m
  | none => false

/-- `getConflictType(conflictedItem)` (local helper in `start()`): Notes get
`noteConflict`, Resources `resourceConflict`, everything else `itemConflict`. -/
def getConflictType (conflictedItem : LocalItem) : String :=
  if conflictedItem.type_ = TYPE_NOTE then "noteConflict"
  else if conflictedItem.type_ = TYPE_RESOURCE then "resourceConflict"
  else "itemConflict"

/-- Outcome of `apiCall('get', path)` followed by `BaseItem.unserialize`:
either deserialized content, a null body (which the source turns into a
thrown `Error`), or a thrown error. -/
inductive GetOutcome
  | ok (content : LocalItem)
  | nullContent
  | err (e : JError)
  deriving Repr, DecidableEq

/-- Environment for one iteration of the UPLOAD loop: the responses of every
external call the loop can make for the current item. -/
structure UploadEnv where
  /-- `result.neverSyncedItemIds.includes(local.id)` -/
  neverSynced : Bool
  /-- result of `apiCall('stat', path)` (consulted only when not never-synced) -/
  statResult : Option RemoteItem
  /-- result of `apiCall('get', path)` + `BaseItem.unserialize` -/
  getOutcome : GetOutcome
  /-- `(await Resource.localState(local.id)).fetch_status` -/
  fetch_status : Nat
  /-- `(await Resource.fullPathForSyncUpload(local)).resource`; the source
  reassigns `local` to it before uploading -/
  fullPathResource : LocalItem
  /-- error thrown inside the blob-upload `try` (`fullPathForSyncUpload` or
  `apiCall('put', Resources/{id}, ...)`), `none` on success -/
  blobPutResult : Option JError
  /-- error thrown by `itemUploader.serializeAndUploadItem`, `none` on success -/
  uploadResult : Option JError
  /-- `Note.mustHandleConflict(local, remoteContent)` -/
  mustHandleConflictResult : Bool
  /-- `this.testingHooks_` -/
  testingHooks : List String
  deriving Repr, DecidableEq

/-- Trace of one UPLOAD-loop iteration: every externally visible effect of
lines 788-1057 of the source, plus the thrown error if the iteration throws.
`decidedAction` is the `action` value right after the decision block
(lines 819-881); `finalAction` is its value after the Resource blob step,
which may reset it to `null`. `completed` records whether
`completeItemProcessing(path)` ran. -/
structure ItemResult where
  decidedAction : Option String := none
  finalAction : Option String := none
  blobUploaded : Bool := false
  metadataUploaded : Bool := false
  /-- argument pair of `ItemClass.saveSyncTime(syncTargetId, local, local.updated_time)` -/
  syncTimeSaved : Option (String × Nat) := none
  /-- reasons passed to `handleCannotSyncItem` (which saves the sync-disabled
  flag and dispatches `SYNC_HAS_DISABLED_SYNC_ITEMS`) -/
  disabledReasons : List String := []
  /-- item written by `ItemClass.save(local, { autoTimestamp: false,
  changeSource: SOURCE_SYNC, nextQueries: updateSyncTimeQueries(...) })` -/
  savedLocal : Option LocalItem := none
  /-- id passed to `ItemClass.delete(local.id, { changeSource: SOURCE_SYNC })` -/
  deletedLocalId : Option String := none
  /-- `Note.createConflictNote(local, SOURCE_SYNC)` ran -/
  conflictNoteCreated : Bool := false
  /-- `Resource.createConflictResourceNote(local)` ran -/
  conflictResourceNoteCreated : Bool := false
  /-- `Resource.setLocalState(local.id, { fetch_status: IDLE })` ran -/
  fetchStatusSetIdle : Bool := false
  dispatchedGotEncryptedItem : Bool := false
  /-- messages pushed onto `progressReport_.errors` by this iteration -/
  pushedErrors : List String := []
  thrown : Option JError := none
  completed : Bool := false
  deriving Repr, DecidableEq

/-- First step of one UPLOAD iteration (lines 819-881): compute `remote`
(skipping `stat` for never-synced items), then decide the action, fetching and
deserializing the remote content when the remote exists. -/
inductive DecisionStep
  | proceed (action : String) (remote : Option RemoteItem) (remoteContent : Option LocalItem)
  | skipRejected (e : JError)
  | fail (e : JError)
  deriving Repr, DecidableEq

/-- The `remote` stub of line 819: `stat` is skipped (null) for never-synced
items. -/
def remoteOf (env : UploadEnv) : Option RemoteItem :=
  if env.neverSynced then none else env.statResult

/-- The decision block of the UPLOAD loop, translated from lines 819-881. -/
def decideUpload (env : UploadEnv) (localItem : LocalItem) : DecisionStep :=
  match remoteOf env with
  | none =>
    if localItem.sync_time = 0 then
      DecisionStep.proceed "createRemote" none none
    else
      DecisionStep.proceed (getConflictType localItem) none none
  | some r =>
    match env.getOutcome with
    | GetOutcome.err e =>
      if e.code = "rejectedByTarget" then DecisionStep.skipRejected e
      else DecisionStep.fail e
    | GetOutcome.nullContent =>
      DecisionStep.fail { message := "Got metadata for path but could not fetch content",
                          code := "", etype := "" }
    | GetOutcome.ok content =>
      if content.updated_time > localItem.sync_time then
        DecisionStep.proceed (getConflictType localItem) (some r) (some content)
      else
        DecisionStep.proceed "updateRemote" (some r) (some content)

/-- Intermediate state after the Resource blob-upload block. -/
structure BlobStep where
  action : Option String
  localItem : LocalItem
  disabledReasons : List String
  blobUploaded : Bool
  thrown : Option JError
  deriving Repr, DecidableEq

/-- The Resource blob-upload block (lines 885-945): for a Resource with a
`createRemote`/`updateRemote` action, require `fetch_status == DONE` (else
sync-disable the item and clear the action), then resolve the blob path
(reassigning `local` to the resolved resource) and `put` the blob; a
cannot-sync error disables the item and clears the action, any other error
propagates. -/
def resourceBlobStep (env : UploadEnv) (localItem : LocalItem) (action : String) : BlobStep :=
  if localItem.type_ = TYPE_RESOURCE ∧ (action = "createRemote" ∨ action = "updateRemote") then
    if env.fetch_status ≠ FETCH_STATUS_DONE then
      { action := none, localItem := localItem,
        disabledReasons := ["Trying to upload resource, but only metadata is present."],
        blobUploaded := false, thrown := none }
    else
      match env.blobPutResult with
      | none =>
        { action := some action, localItem := env.fullPathResource,
          disabledReasons := [], blobUploaded := true, thrown := none }
      | some e =>
        if isCannotSyncError e then
          { action := none, localItem := env.fullPathResource,
            disabledReasons := [e.message], blobUploaded := false, thrown := none }
        else
          { action := some action, localItem := env.fullPathResource,
            disabledReasons := [], blobUploaded := false, thrown := some e }
  else
    { action := some action, localItem := localItem, disabledReasons := [],
      blobUploaded := false, thrown := none }

/-- The per-action handling of the UPLOAD loop (lines 947-1050): upload with
`saveSyncTime` on success (a `rejectedByTarget` rejection sync-disables the
item and skips the save), or resolve the conflict variants. The `action`
value at this point is the blob step's output. -/
def uploadOrConflictCore (env : UploadEnv) (blob : BlobStep)
    (remote : Option RemoteItem) (remoteContent : Option LocalItem) : ItemResult :=
  if blob.action = some "createRemote" ∨ blob.action = some "updateRemote" then
    if env.testingHooks.contains "notesRejectedByTarget" ∧ blob.localItem.type_ = TYPE_NOTE then
      { finalAction := blob.action,
        blobUploaded := blob.blobUploaded,
        disabledReasons := blob.disabledReasons ++ ["Testing rejectedByTarget"],
        completed := true }
    else
      match env.uploadResult with
      | none =>
        { finalAction := blob.action,
          blobUploaded := blob.blobUploaded, metadataUploaded := true,
          disabledReasons := blob.disabledReasons,
          syncTimeSaved := some (blob.localItem.id, blob.localItem.updated_time),
          completed := true }
      | some e =>
        if e.code = "rejectedByTarget" then
          { finalAction := blob.action,
            blobUploaded := blob.blobUploaded,
            disabledReasons := blob.disabledReasons ++ [e.message],
            completed := true }
        else
          { finalAction := blob.action,
            blobUploaded := blob.blobUploaded,
            disabledReasons := blob.disabledReasons, thrown := some e }
  else if blob.action = some "itemConflict" then
    match remote with
    | some _ =>
      { finalAction := blob.action,
        blobUploaded := blob.blobUploaded, disabledReasons := blob.disabledReasons,
        savedLocal := remoteContent, completed := true }
    | none =>
      { finalAction := blob.action,
        blobUploaded := blob.blobUploaded, disabledReasons := blob.disabledReasons,
        deletedLocalId := some blob.localItem.id, completed := true }
  else if blob.action = some "noteConflict" ∨ blob.action = some "resourceConflict" then
    match remote with
    | some _ =>
      { finalAction := blob.action,
        blobUploaded := blob.blobUploaded, disabledReasons := blob.disabledReasons,
        conflictNoteCreated := decide (blob.action = some "noteConflict") &&
          (match remoteContent with
           | some _ => env.mustHandleConflictResult
           | none => true),
        conflictResourceNoteCreated := decide (blob.action = some "resourceConflict"),
        fetchStatusSetIdle := decide (blob.action = some "resourceConflict"),
        savedLocal := remoteContent,
        dispatchedGotEncryptedItem :=
          match remoteContent with
          | some c => c.encryption_applied
          | none => false,
        completed := true }
    | none =>
      { finalAction := blob.action,
        blobUploaded := blob.blobUploaded, disabledReasons := blob.disabledReasons,
        conflictNoteCreated := decide (blob.action = some "noteConflict") &&
          (match remoteContent with
           | some _ => env.mustHandleConflictResult
           | none => true),
        conflictResourceNoteCreated := decide (blob.action = some "resourceConflict"),
        fetchStatusSetIdle := false,
        deletedLocalId := some blob.localItem.id, completed := true }
  else
    { finalAction := blob.action,
      blobUploaded := blob.blobUploaded, disabledReasons := blob.disabledReasons,
      completed := true }

/-- `uploadOrConflictCore` with the decision block's `action` recorded in the
trace. -/
def uploadOrConflict (env : UploadEnv) (decided : String) (blob : BlobStep)
    (remote : Option RemoteItem) (remoteContent : Option LocalItem) : ItemResult :=
  { uploadOrConflictCore env blob remote remoteContent with decidedAction := some decided }

/-- One full iteration of the UPLOAD loop for the item at `path`: the
done-paths guard (line 817, throwing `processingPathTwice`), the action
decision, the Resource blob step, and the per-action handling. -/
def processLocalItem (env : UploadEnv) (local0 : LocalItem) (path : String)
    (donePaths : List String) : ItemResult :=
  if path ∈ donePaths then
    { thrown := some { message := "Processing a path that has already been done: " ++ path,
                       code := "processingPathTwice", etype := "" } }
  else
    match decideUpload env local0 with
    | DecisionStep.skipRejected e =>
      { pushedErrors := [e.message], completed := true }
    | DecisionStep.fail e =>
      { thrown := some e }
    | DecisionStep.proceed action remote remoteContent =>
      let blob := resourceBlobStep env local0 action
      match blob.thrown with
      | some e =>
        { decidedAction := some action, finalAction := blob.action,
          blobUploaded := blob.blobUploaded,
          disabledReasons := blob.disabledReasons, thrown := some e }
      | none => uploadOrConflict env action blob remote remoteContent

/-- Input for one UPLOAD-loop iteration. -/
structure UploadItemInput where
  env : UploadEnv
  localItem : LocalItem
  path : String
  deriving Repr, DecidableEq

/-- The `for` loop over `locals` (lines 803-1053), threading the `donePaths`
list: `completeItemProcessing(path)` appends `path` when the iteration
completes; a thrown error stops the loop and propagates. -/
def uploadLoop (inputs : List UploadItemInput) (donePaths : List String) :
    List ItemResult × List String × Option JError :=
  match inputs with
  | [] => ([], donePaths, none)
  | inp :: rest =>
    let r := processLocalItem inp.env inp.localItem inp.path donePaths
    let newPaths := if r.completed then donePaths ++ [inp.path] else donePaths
    match r.thrown with
    | some e => ([r], newPaths, some e)
    | none =>
      let next := uploadLoop rest newPaths
      (r :: next.1, next.2.1, next.2.2)

/-- The opaque delta continuation, with the two heavy caches that
`saveContextHandler` strips before persisting (lines 1283-1287). -/
structure DeltaContext where
  cursor : String
  statsCache : Option String
  statIdsCache : Option String
  deriving Repr, DecidableEq

/-- `deltaToSave`: a copy of the context with `statsCache` and `statIdsCache`
deleted. -/
def stripContext (c : DeltaContext) : DeltaContext :=
  { cursor := c.cursor, statsCache := none, statIdsCache := none }

/-- One page returned by `apiCall('delta', ...)`. -/
structure DeltaPage where
  context : DeltaContext
  hasMore : Bool
  deriving Repr, DecidableEq

/-- Schedule for one DELTA page: the page the backend returns, whether
`this.cancelling()` is already true when the outer `while` re-checks before
fetching it, and whether cancellation (or the `cancelDeltaLoop2` testing
hook) is observed while processing its items. -/
structure DeltaPageRun where
  page : DeltaPage
  cancelBefore : Bool
  cancelDuring : Bool
  deriving Repr, DecidableEq

/-- The DELTA `while` loop (lines 1105-1297) restricted to its
context-persistence behaviour: pages are consumed in order; a page whose
processing is interrupted sets `hasCancelled`, so the `!hasCancelled` block
(save the stripped context, record `newDeltaContext` on `!hasMore`, advance
`context`) is skipped and the loop exits at the top. Returns the list of
contexts handed to `saveContextHandler` and the final `newDeltaContext`. -/
def deltaLoopGo (saveHandler : Bool) (runs : List DeltaPageRun)
    (saved : List DeltaContext) : List DeltaContext × Option DeltaContext :=
  match runs with
  | [] => (saved, none)
  | r :: rest =>
    if r.cancelBefore then (saved, none)
    else if r.cancelDuring then (saved, none)
    else
      let saved2 := if saveHandler then saved ++ [stripContext r.page.context] else saved
      if r.page.hasMore then deltaLoopGo saveHandler rest saved2
      else (saved2, some r.page.context)

/-- The DELTA phase's context handling: run the page loop, then
`outputContext.delta = newDeltaContext ? newDeltaContext : lastContext.delta`
(line 1299). Returns (contexts persisted via `saveContextHandler`, the run's
output delta context). -/
def deltaPhase (saveHandler : Bool) (runs : List DeltaPageRun)
    (lastContextDelta : Option DeltaContext) :
    List DeltaContext × Option DeltaContext :=
  let out := deltaLoopGo saveHandler runs []
  (out.1, match out.2 with
          | some c => some c
          | none => lastContextDelta)

/-- The missing-user-timestamp backfill of lines 1229-1230. -/
def backfillUserTimestamps (content : LocalItem) : LocalItem :=
  let c1 := if content.user_updated_time = 0 then
    { content with user_updated_time := content.updated_time } else content
  if c1.user_created_time = 0 then
    { c1 with user_created_time := c1.created_time } else c1

/-- The sync-disabled reason built at line 1244 for an oversized resource. -/
def resourceSizeLimitReason (title : String) (limit : Option Nat) : String :=
  let limitStr := match limit with
    | some m => toString m
    | none => "Infinity"
  "File \"" ++ title ++ "\" is larger than allowed " ++ limitStr ++
    " bytes. Beyond this limit, the mobile app would crash."

/-- Trace of the `createLocal`/`updateLocal` handling of one delta item
(lines 1217-1264). -/
structure DeltaItemResult where
  /-- reason passed to `handleCannotSyncItem` with `SYNC_ITEM_LOCATION_REMOTE` -/
  disabledReason : Option String := none
  /-- `ResourceLocalState.save({ resource_id, fetch_status: IDLE })` ran -/
  localStateSavedIdle : Bool := false
  /-- the content written by `ItemClass.save(content, options)`, `none` when
  the item was skipped -/
  savedContent : Option LocalItem := none
  dispatchedCreatedOrUpdatedResource : Bool := false
  dispatchedHasDisabledSyncItems : Bool := false
  deriving Repr, DecidableEq

/-- The `createLocal`/`updateLocal` branch of the DELTA loop: backfill user
timestamps, and for Resources reject contents whose size reaches
`maxResourceSize()` (sync-disabling them and skipping the save) or else
ensure an IDLE local-state row before saving. -/
def applyCreateOrUpdateLocal (maxResourceSizeOverride : Option Nat) (appType : String)
    (action : String) (content0 : LocalItem) : DeltaItemResult :=
  let content := backfillUserTimestamps content0
  let creatingOrUpdatingResource :=
    content.type_ = TYPE_RESOURCE ∧ (action = "createLocal" ∨ action = "updateLocal")
  if creatingOrUpdatingResource then
    if sizeReachesLimit content.size (maxResourceSize maxResourceSizeOverride appType) then
      { disabledReason := some (resourceSizeLimitReason content.title
          (maxResourceSize maxResourceSizeOverride appType)),
        dispatchedHasDisabledSyncItems := true }
    else
      { localStateSavedIdle := true, savedContent := some content,
        dispatchedCreatedOrUpdatedResource := true }
  else
    { savedContent := some content }

/-- Outcome of the big `try` block of `start()` (lines 753-1324): either an
error thrown before the sync lock was acquired (`initialize`, `checkCanSync`,
`upgrade`, `acquireLock`), or — once the lock is held — the three phases
running to the end, possibly throwing. -/
inductive TryOutcome
  | earlyError (e : JError)
  | phases (e : Option JError)
  deriving Repr, DecidableEq

/-- The options of `start()` that the embedding tracks. -/
structure StartOptions where
  throwOnError : Bool
  lastContextDelta : Option DeltaContext
  deriving Repr, DecidableEq

/-- Environment of one `start()` run. -/
structure StartEnv where
  /-- `shim.isTestingEnv()` -/
  isTestingEnv : Bool
  /-- `shim.fetchRequestCanBeRetried(error)` -/
  fetchRequestCanBeRetried : Bool
  outcome : TryOutcome
  /-- `newDeltaContext` computed by the DELTA loop (`none` when the loop was
  cancelled, errored out, or never reached `!hasMore`) -/
  newDeltaContext : Option DeltaContext
  deriving Repr, DecidableEq

/-- Result of one `start()` run. `result` carries `outputContext.delta`. -/
structure StartResult where
  result : Except JError (Option DeltaContext)
  finalState : String
  lockAcquired : Bool
  lockReleased : Bool
  autoRefreshStopped : Bool
  events : List String
  reportErrors : List String
  cancellingAtEnd : Bool
  deriving Repr

/-- The error codes treated as "common conditions" by the catch block
(line 1328). -/
def handledErrorCodes : List String :=
  ["cannotEncryptEncrypted", "noActiveMasterKey", "processingPathTwice",
   "failSafe", "lockError", "outdatedSyncTarget"]

/-- The catch block of `start()` (lines 1325-1352): returns the error to
rethrow after cleanup (only in `throwOnError` mode) and the messages pushed
onto `progressReport_.errors`. -/
def classifyCaughtError (throwOnError isTestingEnv canBeRetried : Bool) (e : JError) :
    Option JError × List String :=
  if throwOnError then (some e, [])
  else if handledErrorCodes.contains e.code then
    (none, if (e.code = "failSafe" ∨ e.code = "lockError") ∧ ¬isTestingEnv
           then [e.message] else [])
  else if e.code = "unknownItemType" then
    (none, ["Unknown item type downloaded - please upgrade Joplin to the latest version"])
  else
    (none, if canBeRetried then [] else [e.message])

/-- The error the `try` block of `start()` threw, if any. -/
def caughtOf : TryOutcome → Option JError
  | TryOutcome.earlyError e => some e
  | TryOutcome.phases e => e

/-- Whether `acquireLock` succeeded before the `try` block's outcome. -/
def lockAcquiredOf : TryOutcome → Bool
  | TryOutcome.earlyError _ => false
  | TryOutcome.phases _ => true

/-- `outputContext.delta` as returned by `start()`: the new delta context if
the DELTA loop recorded one, else the previous run's (line 1299 together with
the initial `Object.assign` copy of `lastContext`). -/
def outputContextDelta (env : StartEnv) (opts : StartOptions) : Option DeltaContext :=
  match env.newDeltaContext with
  | some c => some c
  | none => opts.lastContextDelta

/-- The control skeleton of `start()` (lines 683-1396): the `alreadyStarted`
guard, the big `try`/`catch`, and the unconditional cleanup tail — release
the sync lock and stop its auto-refresh when it was acquired, clear
`cancelling_`, dispatch `SYNC_COMPLETED`, set the state back to `idle`, and
only then rethrow `errorToThrow` (set only in `throwOnError` mode). -/
def startModel (state0 : String) (opts : StartOptions) (env : StartEnv) : StartResult :=
  match startEntry state0 with
  | Except.error e =>
    { result := Except.error e, finalState := state0, lockAcquired := false,
      lockReleased := false, autoRefreshStopped := false, events := [],
      reportErrors := [], cancellingAtEnd := false }
  | Except.ok _ =>
    let classified : Option JError × List String := match caughtOf env.outcome with
      | none => (none, [])
      | some e => classifyCaughtError opts.throwOnError env.isTestingEnv
          env.fetchRequestCanBeRetried e
    { result := match classified.1 with
        | some e => Except.error e
        | none => Except.ok (outputContextDelta env opts),
      finalState := "idle",
      lockAcquired := lockAcquiredOf env.outcome,
      lockReleased := lockAcquiredOf env.outcome,
      autoRefreshStopped := lockAcquiredOf env.outcome,
      events := ["SYNC_STARTED", "SYNC_COMPLETED"],
      reportErrors := classified.2,
      cancellingAtEnd := false }

/-! ## Theorems -/

/-- C9: Every File API call through `apiCall` fails immediately with a
`lockError` when `syncTargetIsLocked_` is set, independently of the backend's
response; when the underlying call throws while `lockErrorStatus_()` is
non-empty (`hasExclusiveLock` when an Exclusive lock is active, `syncLockGone`
when this client's Sync lock is gone), the error is replaced by a `lockError`
carrying the original message, and otherwise the original error is re-thrown
unchanged. -/
theorem apiCall_lock_error_rewrap (callResult : Except JError String) (ex sy : Bool) :
    (∀ res res' : Except JError String, apiCall true res ex sy = apiCall true res' ex sy) ∧
    (∃ e, apiCall true callResult ex sy = Except.error e ∧ e.code = "lockError") ∧
    (∀ e : JError, lockErrorStatus_ ex sy ≠ "" →
      apiCall false (Except.error e) ex sy =
        Except.error { message := "Sync target lock error: " ++ lockErrorStatus_ ex sy ++
            ". Original error was: " ++ e.message, code := "lockError", etype := "" }) ∧
    (∀ e : JError, lockErrorStatus_ ex sy = "" →
      apiCall false (Except.error e) ex sy = Except.error e) ∧
    (ex = true → lockErrorStatus_ ex sy = "hasExclusiveLock") ∧
    (ex = false → sy = false → lockErrorStatus_ ex sy = "syncLockGone") ∧
    (ex = false → sy = true → lockErrorStatus_ ex sy = "") := by
  refine ⟨?_, ?_, ?_, ?_, ?_, ?_, ?_⟩
  · intro res res'; simp [apiCall]
  · refine ⟨{ message := "Sync target is locked - aborting API call",
              code := "lockError", etype := "" }, ?_, rfl⟩
    simp [apiCall]
  · intro e h; simp [apiCall, h]
  · intro e h; simp [apiCall, h]
  · intro h; subst h; simp [lockErrorStatus_]
  · intro h1 h2; subst h1; subst h2; simp [lockErrorStatus_]
  · intro h1 h2; subst h1; subst h2; simp [lockErrorStatus_]

/-- Witness for `apiCall_lock_error_rewrap` at a concrete input: an Exclusive
lock is active and the backend throws, so the error comes back as a
`lockError` embedding the original message. -/
theorem apiCall_lock_error_rewrap_witness :
    apiCall false (Except.error { message := "boom", code := "rejectedByTarget", etype := "" }) true true =
      Except.error { message := "Sync target lock error: hasExclusiveLock. Original error was: boom",
                     code := "lockError", etype := "" } := by
  have h := (apiCall_lock_error_rewrap (Except.ok "") true true).2.2.1
    { message := "boom", code := "rejectedByTarget", etype := "" } (by decide)
  exact h

/-- C8: Calling `start()` while the state is not `idle` fails with an
`alreadyStarted` error and leaves the state (and everything else) untouched;
from `idle`, the entry guard moves the state to `in_progress`. -/
theorem start_alreadyStarted_guard (state0 : String) (opts : StartOptions) (env : StartEnv)
    (h : state0 ≠ "idle") :
    (∃ e, (startModel state0 opts env).result = Except.error e ∧ e.code = "alreadyStarted") ∧
    (startModel state0 opts env).finalState = state0 ∧
    (startModel state0 opts env).events = [] ∧
    (startModel state0 opts env).lockAcquired = false ∧
    (startModel state0 opts env).reportErrors = [] ∧
    startEntry "idle" = Except.ok "in_progress" := by
  refine ⟨⟨{ message := "Synchronisation is already in progress. State: " ++ state0,
             code := "alreadyStarted", etype := "" }, ?_, rfl⟩, ?_, ?_, ?_, ?_, rfl⟩ <;>
    simp [startModel, startEntry, h]

/-- Witness for `start_alreadyStarted_guard`: a second `start()` while
`in_progress` fails with code `alreadyStarted`. -/
theorem start_alreadyStarted_guard_witness :
    (∃ e, (startModel "in_progress" { throwOnError := false, lastContextDelta := none }
        { isTestingEnv := false, fetchRequestCanBeRetried := false,
          outcome := TryOutcome.phases none, newDeltaContext := none }).result =
          Except.error e ∧ e.code = "alreadyStarted") ∧
    startEntry "idle" = Except.ok "in_progress" := by
  have h := start_alreadyStarted_guard "in_progress"
    { throwOnError := false, lastContextDelta := none }
    { isTestingEnv := false, fetchRequestCanBeRetried := false,
      outcome := TryOutcome.phases none, newDeltaContext := none } (by decide)
  exact ⟨h.1, h.2.2.2.2.2⟩

/-- C4: On every exit of a run that actually started (normal completion,
caught phase error — even one rethrown in `throwOnError` mode — and completed
cancellation), the cleanup tail runs: the sync lock, if acquired, is released
and its auto-refresh stopped, the state returns to `idle`, the `cancelling`
flag is cleared, and `SYNC_COMPLETED` is dispatched. -/
theorem start_cleanup_on_every_exit (state0 : String) (opts : StartOptions) (env : StartEnv)
    (h : state0 = "idle") :
    (startModel state0 opts env).finalState = "idle" ∧
    (startModel state0 opts env).lockReleased = (startModel state0 opts env).lockAcquired ∧
    (startModel state0 opts env).autoRefreshStopped = (startModel state0 opts env).lockAcquired ∧
    "SYNC_COMPLETED" ∈ (startModel state0 opts env).events ∧
    (startModel state0 opts env).cancellingAtEnd = false := by
  subst h
  refine ⟨?_, ?_, ?_, ?_, ?_⟩ <;> simp [startModel, startEntry]

/-- Witness for `start_cleanup_on_every_exit`: a run whose DELTA phase threw a
`failSafe` error still ends idle, with the lock released and `SYNC_COMPLETED`
dispatched. -/
theorem start_cleanup_on_every_exit_witness :
    (startModel "idle" { throwOnError := false, lastContextDelta := none }
      { isTestingEnv := false, fetchRequestCanBeRetried := false,
        outcome := TryOutcome.phases (some { message := "fail", code := "failSafe", etype := "" }),
        newDeltaContext := none }).finalState = "idle" ∧
    (startModel "idle" { throwOnError := false, lastContextDelta := none }
      { isTestingEnv := false, fetchRequestCanBeRetried := false,
        outcome := TryOutcome.phases (some { message := "fail", code := "failSafe", etype := "" }),
        newDeltaContext := none }).lockReleased = true ∧
    "SYNC_COMPLETED" ∈ (startModel "idle" { throwOnError := false, lastContextDelta := none }
      { isTestingEnv := false, fetchRequestCanBeRetried := false,
        outcome := TryOutcome.phases (some { message := "fail", code := "failSafe", etype := "" }),
        newDeltaContext := none }).events := by
  have h := start_cleanup_on_every_exit "idle" { throwOnError := false, lastContextDelta := none }
    { isTestingEnv := false, fetchRequestCanBeRetried := false,
      outcome := TryOutcome.phases (some { message := "fail", code := "failSafe", etype := "" }),
      newDeltaContext := none } rfl
  exact ⟨h.1, by simpa using h.2.1, h.2.2.2.1⟩

/-- In non-`throwOnError` mode the catch block never schedules a rethrow, and
pushes at most the caught error's message (or the fixed upgrade message) onto
the report. -/
theorem classifyCaughtError_no_rethrow (t c : Bool) (e : JError) :
    (classifyCaughtError false t c e).1 = none ∧
    ((classifyCaughtError false t c e).2 = [] ∨
     (classifyCaughtError false t c e).2 = [e.message] ∨
     (classifyCaughtError false t c e).2 =
       ["Unknown item type downloaded - please upgrade Joplin to the latest version"]) := by
  unfold classifyCaughtError
  constructor
  · split_ifs <;> simp_all
  · split_ifs <;> simp_all

/-- C10: With `throwOnError` absent or false, a run that begins (state was
`idle`) always resolves normally with the output context, whatever the phases
throw — the caught error is at most appended to the report's error list — and
the only error `start()` itself throws is the `alreadyStarted` guard error. -/
theorem start_resolves_without_throwOnError (state0 : String) (opts : StartOptions)
    (env : StartEnv) (h : opts.throwOnError = false) :
    (state0 = "idle" →
      (startModel state0 opts env).result = Except.ok (outputContextDelta env opts)) ∧
    (∀ e, (startModel state0 opts env).result = Except.error e → e.code = "alreadyStarted") ∧
    (∀ e, state0 = "idle" → env.outcome = TryOutcome.phases (some e) →
      (startModel state0 opts env).reportErrors = [] ∨
      (startModel state0 opts env).reportErrors = [e.message] ∨
      (startModel state0 opts env).reportErrors =
        ["Unknown item type downloaded - please upgrade Joplin to the latest version"]) := by
  by_cases hs : state0 = "idle"
  · subst hs
    have hok : (startModel "idle" opts env).result = Except.ok (outputContextDelta env opts) := by
      simp only [startModel, startEntry]
      rcases houtc : caughtOf env.outcome with _ | e0
      · simp
      · rw [h]
        simp [(classifyCaughtError_no_rethrow env.isTestingEnv env.fetchRequestCanBeRetried e0).1]
    refine ⟨fun _ => hok, fun e he => ?_, fun e _ hout => ?_⟩
    · rw [hok] at he; exact absurd he (by simp)
    · have hrep : (startModel "idle" opts env).reportErrors =
          (classifyCaughtError false env.isTestingEnv env.fetchRequestCanBeRetried e).2 := by
        simp only [startModel, startEntry]
        rw [show caughtOf env.outcome = some e from by rw [hout]; rfl, h]
        simp
      rw [hrep]
      exact (classifyCaughtError_no_rethrow env.isTestingEnv env.fetchRequestCanBeRetried e).2
  · refine ⟨fun he => absurd he hs, fun e he => ?_, fun e he => absurd he hs⟩
    simp only [startModel, startEntry] at he
    rw [if_pos hs] at he
    simp only [Except.error.injEq] at he
    subst he
    rfl

/-- Witness for `start_resolves_without_throwOnError`: a run whose phases
threw a generic non-retryable error still resolves with the output context,
and the error only lands in the report. -/
theorem start_resolves_without_throwOnError_witness :
    ((startModel "idle" { throwOnError := false, lastContextDelta := none }
      { isTestingEnv := false, fetchRequestCanBeRetried := false,
        outcome := TryOutcome.phases (some { message := "disk full", code := "weird", etype := "" }),
        newDeltaContext := none }).result = Except.ok none) ∧
    ((startModel "idle" { throwOnError := false, lastContextDelta := none }
      { isTestingEnv := false, fetchRequestCanBeRetried := false,
        outcome := TryOutcome.phases (some { message := "disk full", code := "weird", etype := "" }),
        newDeltaContext := none }).reportErrors = [] ∨
     (startModel "idle" { throwOnError := false, lastContextDelta := none }
      { isTestingEnv := false, fetchRequestCanBeRetried := false,
        outcome := TryOutcome.phases (some { message := "disk full", code := "weird", etype := "" }),
        newDeltaContext := none }).reportErrors = ["disk full"] ∨
     (startModel "idle" { throwOnError := false, lastContextDelta := none }
      { isTestingEnv := false, fetchRequestCanBeRetried := false,
        outcome := TryOutcome.phases (some { message := "disk full", code := "weird", etype := "" }),
        newDeltaContext := none }).reportErrors =
        ["Unknown item type downloaded - please upgrade Joplin to the latest version"]) := by
  have h := start_resolves_without_throwOnError "idle"
    { throwOnError := false, lastContextDelta := none }
    { isTestingEnv := false, fetchRequestCanBeRetried := false,
      outcome := TryOutcome.phases (some { message := "disk full", code := "weird", etype := "" }),
      newDeltaContext := none } rfl
  exact ⟨h.1 rfl, h.2.2 { message := "disk full", code := "weird", etype := "" } rfl rfl⟩

/-- The trace of a proceeding iteration records the decided action verbatim. -/
theorem processLocalItem_decided (env : UploadEnv) (l : LocalItem) (path : String)
    (dps : List String) (hpath : path ∉ dps) (a : String) (rm : Option RemoteItem)
    (rc : Option LocalItem) (hd : decideUpload env l = DecisionStep.proceed a rm rc) :
    (processLocalItem env l path dps).decidedAction = some a := by
  unfold processLocalItem
  rw [if_neg hpath, hd]
  cases hth : (resourceBlobStep env l a).thrown <;> simp [hth, uploadOrConflict]

/-- C1: The UPLOAD action decision (lines 819-881): with the remote stub null,
a never-synced item (`sync_time == 0`) gets `createRemote` and a previously
synced one the type-dependent conflict (Note → `noteConflict`, Resource →
`resourceConflict`, else `itemConflict`); with a remote stub present, the
deserialized remote content decides between the type-dependent conflict
(`remoteContent.updated_time > sync_time`) and `updateRemote`. -/
theorem upload_action_decision (env : UploadEnv) (l : LocalItem) (path : String)
    (dps : List String) (hpath : path ∉ dps) :
    (getConflictType l = (if l.type_ = TYPE_NOTE then "noteConflict"
      else if l.type_ = TYPE_RESOURCE then "resourceConflict" else "itemConflict")) ∧
    (remoteOf env = none → l.sync_time = 0 →
      (processLocalItem env l path dps).decidedAction = some "createRemote") ∧
    (remoteOf env = none → 0 < l.sync_time →
      (processLocalItem env l path dps).decidedAction = some (getConflictType l)) ∧
    (∀ rem content, remoteOf env = some rem →
      env.getOutcome = GetOutcome.ok content →
      (processLocalItem env l path dps).decidedAction =
        some (if l.sync_time < content.updated_time then getConflictType l
              else "updateRemote")) := by
  refine ⟨rfl, ?_, ?_, ?_⟩
  · intro hrem hsync
    refine processLocalItem_decided env l path dps hpath _ none none ?_
    unfold decideUpload
    rw [hrem, hsync]
    rfl
  · intro hrem hsync
    have hne : l.sync_time ≠ 0 := Nat.pos_iff_ne_zero.mp hsync
    refine processLocalItem_decided env l path dps hpath _ none none ?_
    unfold decideUpload
    rw [hrem]
    simp [hne]
  · intro rem content hrem hget
    by_cases hcmp : l.sync_time < content.updated_time
    · rw [if_pos hcmp]
      refine processLocalItem_decided env l path dps hpath _ (some rem) (some content) ?_
      unfold decideUpload
      rw [hrem, hget]
      simp [hcmp]
    · rw [if_neg hcmp]
      refine processLocalItem_decided env l path dps hpath _ (some rem) (some content) ?_
      unfold decideUpload
      rw [hrem, hget]
      simp [hcmp]

/-- Witness for `upload_action_decision`: a note edited on both sides (remote
content newer than the sync time) is decided as a `noteConflict`. -/
theorem upload_action_decision_witness :
    (processLocalItem
      { neverSynced := false,
        statResult := some { id := "n1", path := "n1.md", type_ := 1, isDeleted := false,
                             updated_time := 300, jop_updated_time := none },
        getOutcome := GetOutcome.ok
          { id := "n1", type_ := 1, sync_time := 0, updated_time := 250, created_time := 10,
            user_updated_time := 250, user_created_time := 10, encryption_applied := false,
            size := 0, title := "remote", share_id := "" },
        fetch_status := 2,
        fullPathResource :=
          { id := "n1", type_ := 1, sync_time := 0, updated_time := 200, created_time := 10,
            user_updated_time := 200, user_created_time := 10, encryption_applied := false,
            size := 0, title := "local", share_id := "" },
        blobPutResult := none, uploadResult := none, mustHandleConflictResult := true,
        testingHooks := [] }
      { id := "n1", type_ := 1, sync_time := 200, updated_time := 260, created_time := 10,
        user_updated_time := 260, user_created_time := 10, encryption_applied := false,
        size := 0, title := "local", share_id := "" }
      "n1.md" []).decidedAction = some "noteConflict" := by
  have h := (upload_action_decision
      { neverSynced := false,
        statResult := some { id := "n1", path := "n1.md", type_ := 1, isDeleted := false,
                             updated_time := 300, jop_updated_time := none },
        getOutcome := GetOutcome.ok
          { id := "n1", type_ := 1, sync_time := 0, updated_time := 250, created_time := 10,
            user_updated_time := 250, user_created_time := 10, encryption_applied := false,
            size := 0, title := "remote", share_id := "" },
        fetch_status := 2,
        fullPathResource :=
          { id := "n1", type_ := 1, sync_time := 0, updated_time := 200, created_time := 10,
            user_updated_time := 200, user_created_time := 10, encryption_applied := false,
            size := 0, title := "local", share_id := "" },
        blobPutResult := none, uploadResult := none, mustHandleConflictResult := true,
        testingHooks := [] }
      { id := "n1", type_ := 1, sync_time := 200, updated_time := 260, created_time := 10,
        user_updated_time := 260, user_created_time := 10, encryption_applied := false,
        size := 0, title := "local", share_id := "" }
      "n1.md" [] (by decide)).2.2.2
    { id := "n1", path := "n1.md", type_ := 1, isDeleted := false,
      updated_time := 300, jop_updated_time := none }
    { id := "n1", type_ := 1, sync_time := 0, updated_time := 250, created_time := 10,
      user_updated_time := 250, user_created_time := 10, encryption_applied := false,
      size := 0, title := "remote", share_id := "" } rfl rfl
  simpa [getConflictType, TYPE_NOTE] using h

/-- The done-paths guard: a path that was already processed makes the
iteration throw `processingPathTwice` before any effect. -/
theorem processLocalItem_mem (env : UploadEnv) (l : LocalItem) (path : String)
    (dps : List String) (h : path ∈ dps) :
    processLocalItem env l path dps =
      { thrown := some { message := "Processing a path that has already been done: " ++ path,
                         code := "processingPathTwice", etype := "" } } := by
  unfold processLocalItem
  rw [if_pos h]

/-- The done-paths list only ever grows by paths not yet in it, so it stays
duplicate-free. -/
theorem uploadLoop_nodup (inputs : List UploadItemInput) :
    ∀ dps : List String, dps.Nodup → ((uploadLoop inputs dps).2.1).Nodup := by
  induction inputs with
  | nil => intro dps h; simpa [uploadLoop] using h
  | cons inp rest ih =>
    intro dps h
    have hnew : (if (processLocalItem inp.env inp.localItem inp.path dps).completed
        then dps ++ [inp.path] else dps).Nodup := by
      by_cases hmem : inp.path ∈ dps
      · rw [processLocalItem_mem inp.env inp.localItem inp.path dps hmem]
        simpa using h
      · split
        · simp [List.nodup_append, h, hmem]
        · exact h
    rw [uploadLoop]
    cases hth : (processLocalItem inp.env inp.localItem inp.path dps).thrown with
    | some e => simpa [hth] using hnew
    | none => simpa [hth] using ih _ hnew

/-- C3: Within one UPLOAD phase no path is appended twice to the done-paths
list — the list stays duplicate-free across the whole loop — because an item
whose path is already in the list makes the phase throw `processingPathTwice`
instead of being processed again. -/
theorem upload_done_paths_no_duplicates :
    (∀ (env : UploadEnv) (l : LocalItem) (path : String) (dps : List String),
      path ∈ dps →
      (processLocalItem env l path dps).completed = false ∧
      (processLocalItem env l path dps).decidedAction = none ∧
      (processLocalItem env l path dps).metadataUploaded = false ∧
      (processLocalItem env l path dps).blobUploaded = false ∧
      ∃ e, (processLocalItem env l path dps).thrown = some e ∧
        e.code = "processingPathTwice") ∧
    (∀ inputs : List UploadItemInput, ((uploadLoop inputs []).2.1).Nodup) := by
  constructor
  · intro env l path dps hmem
    rw [processLocalItem_mem env l path dps hmem]
    exact ⟨rfl, rfl, rfl, rfl, _, rfl, rfl⟩
  · intro inputs
    exact uploadLoop_nodup inputs [] List.nodup_nil

/-- Witness for `upload_done_paths_no_duplicates`: re-encountering the path
`a.md` already in the done-paths list throws `processingPathTwice`. -/
theorem upload_done_paths_no_duplicates_witness :
    (processLocalItem
      { neverSynced := true, statResult := none, getOutcome := GetOutcome.nullContent,
        fetch_status := 2,
        fullPathResource :=
          { id := "a", type_ := 1, sync_time := 0, updated_time := 1, created_time := 1,
            user_updated_time := 1, user_created_time := 1, encryption_applied := false,
            size := 0, title := "a", share_id := "" },
        blobPutResult := none, uploadResult := none, mustHandleConflictResult := true,
        testingHooks := [] }
      { id := "a", type_ := 1, sync_time := 0, updated_time := 1, created_time := 1,
        user_updated_time := 1, user_created_time := 1, encryption_applied := false,
        size := 0, title := "a", share_id := "" }
      "a.md" ["a.md"]).completed = false ∧
    ∃ e, (processLocalItem
      { neverSynced := true, statResult := none, getOutcome := GetOutcome.nullContent,
        fetch_status := 2,
        fullPathResource :=
          { id := "a", type_ := 1, sync_time := 0, updated_time := 1, created_time := 1,
            user_updated_time := 1, user_created_time := 1, encryption_applied := false,
            size := 0, title := "a", share_id := "" },
        blobPutResult := none, uploadResult := none, mustHandleConflictResult := true,
        testingHooks := [] }
      { id := "a", type_ := 1, sync_time := 0, updated_time := 1, created_time := 1,
        user_updated_time := 1, user_created_time := 1, encryption_applied := false,
        size := 0, title := "a", share_id := "" }
      "a.md" ["a.md"]).thrown = some e ∧ e.code = "processingPathTwice" := by
  have h := upload_done_paths_no_duplicates.1
    { neverSynced := true, statResult := none, getOutcome := GetOutcome.nullContent,
      fetch_status := 2,
      fullPathResource :=
        { id := "a", type_ := 1, sync_time := 0, updated_time := 1, created_time := 1,
          user_updated_time := 1, user_created_time := 1, encryption_applied := false,
          size := 0, title := "a", share_id := "" },
      blobPutResult := none, uploadResult := none, mustHandleConflictResult := true,
      testingHooks := [] }
    { id := "a", type_ := 1, sync_time := 0, updated_time := 1, created_time := 1,
      user_updated_time := 1, user_created_time := 1, encryption_applied := false,
      size := 0, title := "a", share_id := "" }
    "a.md" ["a.md"] (by decide)
  exact ⟨h.1, h.2.2.2.2⟩

/-- In the per-action block, a metadata upload happens exactly in the
successful `serializeAndUploadItem` branch, where `saveSyncTime` records the
(possibly blob-resolved) local item's id and `updated_time`. -/
theorem uploadOrConflictCore_syncTime (env : UploadEnv) (blob : BlobStep)
    (rm : Option RemoteItem) (rc : Option LocalItem) :
    ((uploadOrConflictCore env blob rm rc).metadataUploaded = true →
      (uploadOrConflictCore env blob rm rc).syncTimeSaved =
        some (blob.localItem.id, blob.localItem.updated_time) ∧ env.uploadResult = none) ∧
    ((uploadOrConflictCore env blob rm rc).metadataUploaded = false →
      (uploadOrConflictCore env blob rm rc).syncTimeSaved = none) := by
  unfold uploadOrConflictCore
  constructor <;> (repeat' split) <;> simp_all

/-- The blob step either keeps the original local item or replaces it by the
resolved `fullPathForSyncUpload` resource. -/
theorem resourceBlobStep_localItem (env : UploadEnv) (l : LocalItem) (a : String) :
    (resourceBlobStep env l a).localItem = l ∨
    (resourceBlobStep env l a).localItem = env.fullPathResource := by
  unfold resourceBlobStep
  (repeat' split) <;> simp

/-- C2: Whenever `serializeAndUploadItem` succeeds for an item (upload action
`createRemote`/`updateRemote` not rejected by the target), `saveSyncTime`
persists exactly the local item's `updated_time` for its id; when the upload
is rejected (or never reached), no sync time is persisted. The two
hypotheses record that `Resource.fullPathForSyncUpload` returns the same
resource row (same id and `updated_time`). -/
theorem saveSyncTime_after_successful_upload (env : UploadEnv) (l : LocalItem)
    (path : String) (dps : List String)
    (hid : env.fullPathResource.id = l.id)
    (hut : env.fullPathResource.updated_time = l.updated_time) :
    ((processLocalItem env l path dps).metadataUploaded = true →
      (processLocalItem env l path dps).syncTimeSaved = some (l.id, l.updated_time) ∧
      env.uploadResult = none) ∧
    ((processLocalItem env l path dps).metadataUploaded = false →
      (processLocalItem env l path dps).syncTimeSaved = none) := by
  unfold processLocalItem
  by_cases hmem : path ∈ dps
  · rw [if_pos hmem]
    exact ⟨by simp, by simp⟩
  · rw [if_neg hmem]
    cases hdec : decideUpload env l with
    | skipRejected e => exact ⟨by simp, by simp⟩
    | fail e => exact ⟨by simp, by simp⟩
    | proceed a rm rc =>
      dsimp only
      cases hth : (resourceBlobStep env l a).thrown with
      | some e => exact ⟨by simp, by simp⟩
      | none =>
        have hcore := uploadOrConflictCore_syncTime env (resourceBlobStep env l a) rm rc
        have hloc := resourceBlobStep_localItem env l a
        constructor
        · intro hm
          obtain ⟨hsave, hup⟩ := hcore.1 hm
          refine ⟨?_, hup⟩
          show (uploadOrConflictCore env (resourceBlobStep env l a) rm rc).syncTimeSaved = _
          rw [hsave]
          rcases hloc with h | h
          · rw [h]
          · rw [h, hid, hut]
        · intro hm
          exact hcore.2 hm

/-- Witness for `saveSyncTime_after_successful_upload`: a never-synced note
uploads successfully and its sync time is persisted as its `updated_time`. -/
theorem saveSyncTime_after_successful_upload_witness :
    (processLocalItem
      { neverSynced := true, statResult := none, getOutcome := GetOutcome.nullContent,
        fetch_status := 2,
        fullPathResource :=
          { id := "n2", type_ := 1, sync_time := 0, updated_time := 500, created_time := 1,
            user_updated_time := 500, user_created_time := 1, encryption_applied := false,
            size := 0, title := "n", share_id := "" },
        blobPutResult := none, uploadResult := none, mustHandleConflictResult := true,
        testingHooks := [] }
      { id := "n2", type_ := 1, sync_time := 0, updated_time := 500, created_time := 1,
        user_updated_time := 500, user_created_time := 1, encryption_applied := false,
        size := 0, title := "n", share_id := "" }
      "n2.md" []).syncTimeSaved = some ("n2", 500) := by
  have h := (saveSyncTime_after_successful_upload
    { neverSynced := true, statResult := none, getOutcome := GetOutcome.nullContent,
      fetch_status := 2,
      fullPathResource :=
        { id := "n2", type_ := 1, sync_time := 0, updated_time := 500, created_time := 1,
          user_updated_time := 500, user_created_time := 1, encryption_applied := false,
          size := 0, title := "n", share_id := "" },
      blobPutResult := none, uploadResult := none, mustHandleConflictResult := true,
      testingHooks := [] }
    { id := "n2", type_ := 1, sync_time := 0, updated_time := 500, created_time := 1,
      user_updated_time := 500, user_created_time := 1, encryption_applied := false,
      size := 0, title := "n", share_id := "" }
    "n2.md" [] rfl rfl).1 (by decide)
  exact h.1

/-- The blob is uploaded only from the branch that verified
`fetch_status == DONE`. -/
theorem resourceBlobStep_blobUploaded (env : UploadEnv) (l : LocalItem) (a : String) :
    (resourceBlobStep env l a).blobUploaded = true → env.fetch_status = FETCH_STATUS_DONE := by
  unfold resourceBlobStep
  (repeat' split) <;> simp_all

/-- For a Resource with an upload action and a missing blob, the blob step
clears the action and sync-disables the item. -/
theorem resourceBlobStep_notDone (env : UploadEnv) (l : LocalItem) (a : String)
    (htype : l.type_ = TYPE_RESOURCE) (ha : a = "createRemote" ∨ a = "updateRemote")
    (hf : env.fetch_status ≠ FETCH_STATUS_DONE) :
    resourceBlobStep env l a =
      { action := none, localItem := l,
        disabledReasons := ["Trying to upload resource, but only metadata is present."],
        blobUploaded := false, thrown := none } := by
  unfold resourceBlobStep
  rw [if_pos ⟨htype, ha⟩, if_pos hf]

/-- For a Resource, an upload action that survives the blob step implies the
blob was fetched (`fetch_status == DONE`). -/
theorem resourceBlobStep_action_up (env : UploadEnv) (l : LocalItem) (a : String)
    (htype : l.type_ = TYPE_RESOURCE)
    (hact : (resourceBlobStep env l a).action = some "createRemote" ∨
            (resourceBlobStep env l a).action = some "updateRemote") :
    env.fetch_status = FETCH_STATUS_DONE := by
  by_cases ha : a = "createRemote" ∨ a = "updateRemote"
  · by_cases hf : env.fetch_status = FETCH_STATUS_DONE
    · exact hf
    · rw [resourceBlobStep_notDone env l a htype ha hf] at hact
      simp at hact
  · unfold resourceBlobStep at hact
    rw [if_neg (fun hc => ha hc.2)] at hact
    simp at hact
    exact absurd hact ha

/-- The per-action block forwards the blob step's `blobUploaded` flag, and
uploads metadata only when the surviving action is an upload action. -/
theorem uploadOrConflictCore_fields (env : UploadEnv) (blob : BlobStep)
    (rm : Option RemoteItem) (rc : Option LocalItem) :
    (uploadOrConflictCore env blob rm rc).blobUploaded = blob.blobUploaded ∧
    ((uploadOrConflictCore env blob rm rc).metadataUploaded = true →
      blob.action = some "createRemote" ∨ blob.action = some "updateRemote") := by
  unfold uploadOrConflictCore
  constructor <;> (repeat' split) <;> simp_all

/-- C7: During UPLOAD a Resource's blob (and then its metadata) is uploaded
only when its local `fetch_status` equals DONE; a Resource whose decided
action is `createRemote`/`updateRemote` but whose blob is not fetched is
sync-disabled, its action is cleared, and neither blob nor metadata is
uploaded nor any sync time saved. -/
theorem resource_upload_requires_blob_done (env : UploadEnv) (l : LocalItem)
    (path : String) (dps : List String) (htype : l.type_ = TYPE_RESOURCE) :
    ((processLocalItem env l path dps).blobUploaded = true →
      env.fetch_status = FETCH_STATUS_DONE) ∧
    ((processLocalItem env l path dps).metadataUploaded = true →
      env.fetch_status = FETCH_STATUS_DONE) ∧
    (∀ a, (processLocalItem env l path dps).decidedAction = some a →
      (a = "createRemote" ∨ a = "updateRemote") →
      env.fetch_status ≠ FETCH_STATUS_DONE →
      (processLocalItem env l path dps).finalAction = none ∧
      (processLocalItem env l path dps).blobUploaded = false ∧
      (processLocalItem env l path dps).metadataUploaded = false ∧
      (processLocalItem env l path dps).syncTimeSaved = none ∧
      (processLocalItem env l path dps).disabledReasons =
        ["Trying to upload resource, but only metadata is present."]) := by
  unfold processLocalItem
  by_cases hmem : path ∈ dps
  · rw [if_pos hmem]
    exact ⟨by simp, by simp, by simp⟩
  · rw [if_neg hmem]
    cases hdec : decideUpload env l with
    | skipRejected e => exact ⟨by simp, by simp, by simp⟩
    | fail e => exact ⟨by simp, by simp, by simp⟩
    | proceed a rm rc =>
      dsimp only
      cases hth : (resourceBlobStep env l a).thrown with
      | some e =>
        refine ⟨?_, by simp, ?_⟩
        · intro hb
          simp only at hb
          exact resourceBlobStep_blobUploaded env l a hb
        · intro a2 ha2 hcr hf
          have h0 : (some a : Option String) = some a2 := ha2
          injection h0 with h1
          rw [← h1] at hcr
          rw [resourceBlobStep_notDone env l a htype hcr hf] at hth
          simp at hth
      | none =>
        refine ⟨?_, ?_, ?_⟩
        · intro hb
          have hb' : (uploadOrConflictCore env (resourceBlobStep env l a) rm rc).blobUploaded = true := hb
          rw [(uploadOrConflictCore_fields env (resourceBlobStep env l a) rm rc).1] at hb'
          exact resourceBlobStep_blobUploaded env l a hb'
        · intro hm
          have hm' : (uploadOrConflictCore env (resourceBlobStep env l a) rm rc).metadataUploaded = true := hm
          exact resourceBlobStep_action_up env l a htype
            ((uploadOrConflictCore_fields env (resourceBlobStep env l a) rm rc).2 hm')
        · intro a2 ha2 hcr hf
          have h0 : (some a : Option String) = some a2 := ha2
          injection h0 with h1
          rw [← h1] at hcr
          rw [show (resourceBlobStep env l a) = _ from
            resourceBlobStep_notDone env l a htype hcr hf]
          simp [uploadOrConflict, uploadOrConflictCore]

/-- Witness for `resource_upload_requires_blob_done`: a resource whose blob
was never fetched (`fetch_status = IDLE`) is sync-disabled and its upload
action cleared. -/
theorem resource_upload_requires_blob_done_witness :
    (processLocalItem
      { neverSynced := true, statResult := none, getOutcome := GetOutcome.nullContent,
        fetch_status := 0,
        fullPathResource :=
          { id := "r1", type_ := 4, sync_time := 0, updated_time := 50, created_time := 1,
            user_updated_time := 50, user_created_time := 1, encryption_applied := false,
            size := 10, title := "r", share_id := "" },
        blobPutResult := none, uploadResult := none, mustHandleConflictResult := true,
        testingHooks := [] }
      { id := "r1", type_ := 4, sync_time := 0, updated_time := 50, created_time := 1,
        user_updated_time := 50, user_created_time := 1, encryption_applied := false,
        size := 10, title := "r", share_id := "" }
      "r1.md" []).finalAction = none ∧
    (processLocalItem
      { neverSynced := true, statResult := none, getOutcome := GetOutcome.nullContent,
        fetch_status := 0,
        fullPathResource :=
          { id := "r1", type_ := 4, sync_time := 0, updated_time := 50, created_time := 1,
            user_updated_time := 50, user_created_time := 1, encryption_applied := false,
            size := 10, title := "r", share_id := "" },
        blobPutResult := none, uploadResult := none, mustHandleConflictResult := true,
        testingHooks := [] }
      { id := "r1", type_ := 4, sync_time := 0, updated_time := 50, created_time := 1,
        user_updated_time := 50, user_created_time := 1, encryption_applied := false,
        size := 10, title := "r", share_id := "" }
      "r1.md" []).disabledReasons =
      ["Trying to upload resource, but only metadata is present."] := by
  have h := (resource_upload_requires_blob_done
    { neverSynced := true, statResult := none, getOutcome := GetOutcome.nullContent,
      fetch_status := 0,
      fullPathResource :=
        { id := "r1", type_ := 4, sync_time := 0, updated_time := 50, created_time := 1,
          user_updated_time := 50, user_created_time := 1, encryption_applied := false,
          size := 10, title := "r", share_id := "" },
      blobPutResult := none, uploadResult := none, mustHandleConflictResult := true,
      testingHooks := [] }
    { id := "r1", type_ := 4, sync_time := 0, updated_time := 50, created_time := 1,
      user_updated_time := 50, user_created_time := 1, encryption_applied := false,
      size := 10, title := "r", share_id := "" }
    "r1.md" [] rfl).2.2 "createRemote" (by decide) (Or.inl rfl) (by decide)
  exact ⟨h.1, h.2.2.2.2⟩

/-- Running the delta page loop on fully-processed pages followed by a page
whose processing is interrupted persists exactly the completed pages'
stripped contexts and records no new delta context. -/
theorem deltaLoopGo_cancel (pre : List DeltaPageRun) (r : DeltaPageRun)
    (post : List DeltaPageRun)
    (hpre : ∀ q ∈ pre, q.cancelBefore = false ∧ q.cancelDuring = false ∧ q.page.hasMore = true)
    (hc : r.cancelDuring = true) :
    ∀ saved : List DeltaContext,
      deltaLoopGo true (pre ++ r :: post) saved =
        (saved ++ pre.map (fun q => stripContext q.page.context), none) := by
  induction pre with
  | nil =>
    intro saved
    rw [List.nil_append, deltaLoopGo]
    by_cases hb : r.cancelBefore = true
    · simp [hb]
    · simp [hb, hc]
  | cons q pre' ih =>
    intro saved
    obtain ⟨h1, h2, h3⟩ := hpre q (List.mem_cons_self q pre')
    rw [List.cons_append, deltaLoopGo]
    simp only [h1, h2, h3, Bool.false_eq_true, if_false, if_true]
    rw [ih (fun p hp => hpre p (List.mem_cons_of_mem q hp)) (saved ++ [stripContext q.page.context])]
    simp

/-- C5: If the run is cancelled while processing a DELTA page, that page's
context is neither handed to `saveContextHandler` nor recorded as the run's
output delta context: the handler receives exactly the (cache-stripped)
contexts of the fully-processed pages, and the output context falls back to
the previous run's one when no page ended with `hasMore == false`. -/
theorem cancelled_delta_context_not_persisted (pre : List DeltaPageRun)
    (r : DeltaPageRun) (post : List DeltaPageRun) (lastCtx : Option DeltaContext)
    (hpre : ∀ q ∈ pre, q.cancelBefore = false ∧ q.cancelDuring = false ∧ q.page.hasMore = true)
    (hc : r.cancelDuring = true) :
    deltaPhase true (pre ++ r :: post) lastCtx =
      (pre.map (fun q => stripContext q.page.context), lastCtx) := by
  unfold deltaPhase
  rw [deltaLoopGo_cancel pre r post hpre hc []]
  simp

/-- Witness for `cancelled_delta_context_not_persisted`: one fully-processed
page is persisted stripped of its caches; the page interrupted by
cancellation is not, and the output delta context stays the previous run's. -/
theorem cancelled_delta_context_not_persisted_witness :
    deltaPhase true
      [{ page := { context := { cursor := "p1", statsCache := some "s", statIdsCache := some "i" },
                   hasMore := true },
         cancelBefore := false, cancelDuring := false },
       { page := { context := { cursor := "p2", statsCache := none, statIdsCache := none },
                   hasMore := true },
         cancelBefore := false, cancelDuring := true }]
      (some { cursor := "p0", statsCache := none, statIdsCache := none }) =
      ([{ cursor := "p1", statsCache := none, statIdsCache := none }],
       some { cursor := "p0", statsCache := none, statIdsCache := none }) := by
  have h := cancelled_delta_context_not_persisted
    [{ page := { context := { cursor := "p1", statsCache := some "s", statIdsCache := some "i" },
                 hasMore := true },
       cancelBefore := false, cancelDuring := false }]
    { page := { context := { cursor := "p2", statsCache := none, statIdsCache := none },
                hasMore := true },
      cancelBefore := false, cancelDuring := true }
    []
    (some { cursor := "p0", statsCache := none, statIdsCache := none })
    (by intro q hq; simp at hq; subst hq; exact ⟨rfl, rfl, rfl⟩)
    rfl
  simpa [stripContext] using h

/-- The user-timestamp backfill leaves every other field unchanged. -/
theorem backfillUserTimestamps_fields (content : LocalItem) :
    (backfillUserTimestamps content).type_ = content.type_ ∧
    (backfillUserTimestamps content).size = content.size ∧
    (backfillUserTimestamps content).title = content.title := by
  unfold backfillUserTimestamps
  by_cases h1 : content.user_updated_time = 0 <;>
    by_cases h2 : content.user_created_time = 0 <;>
      simp [h1, h2]

/-- C6: On mobile `maxResourceSize()` is 100 MB and a Resource reaching that
size during DELTA is sync-disabled with the size-limit reason instead of
being saved — no `fetch_status = IDLE` row is created, so its blob is never
fetched; on other clients the limit is `Infinity`, which no finite size
reaches, so the item is always saved. -/
theorem mobile_resource_size_limit :
    (maxResourceSize none "mobile" = some (100 * 1000 * 1000)) ∧
    (∀ appType, appType ≠ "mobile" → maxResourceSize none appType = none ∧
      ∀ size, sizeReachesLimit size (maxResourceSize none appType) = false) ∧
    (∀ action content, content.type_ = TYPE_RESOURCE →
      (action = "createLocal" ∨ action = "updateLocal") →
      100 * 1000 * 1000 ≤ content.size →
      (applyCreateOrUpdateLocal none "mobile" action content).savedContent = none ∧
      (applyCreateOrUpdateLocal none "mobile" action content).localStateSavedIdle = false ∧
      (applyCreateOrUpdateLocal none "mobile" action content).dispatchedHasDisabledSyncItems = true ∧
      (applyCreateOrUpdateLocal none "mobile" action content).disabledReason =
        some (resourceSizeLimitReason content.title (some (100 * 1000 * 1000)))) ∧
    (∀ action content appType, appType ≠ "mobile" →
      (applyCreateOrUpdateLocal none appType action content).disabledReason = none ∧
      (applyCreateOrUpdateLocal none appType action content).savedContent =
        some (backfillUserTimestamps content)) := by
  refine ⟨rfl, ?_, ?_, ?_⟩
  · intro appType happ
    refine ⟨by simp [maxResourceSize, happ], fun size => by simp [maxResourceSize, happ, sizeReachesLimit]⟩
  · intro action content htype hact hsize
    have hb := backfillUserTimestamps_fields content
    have hcond : (backfillUserTimestamps content).type_ = TYPE_RESOURCE ∧
        (action = "createLocal" ∨ action = "updateLocal") := ⟨hb.1.trans htype, hact⟩
    have hlim : sizeReachesLimit (backfillUserTimestamps content).size
        (maxResourceSize none "mobile") = true := by
      simp only [maxResourceSize, sizeReachesLimit, hb.2.1]
      simpa [if_pos rfl] using hsize
    unfold applyCreateOrUpdateLocal
    rw [if_pos hcond, if_pos hlim]
    exact ⟨rfl, rfl, rfl, by rw [hb.2.2]; simp [maxResourceSize]⟩
  · intro action content appType happ
    have hlim : ∀ s, sizeReachesLimit s (maxResourceSize none appType) = false := by
      intro s; simp [maxResourceSize, happ, sizeReachesLimit]
    unfold applyCreateOrUpdateLocal
    constructor <;> simp [hlim, apply_ite]

/-- Witness for `mobile_resource_size_limit`: a 120 MB resource arriving via
DELTA on mobile is sync-disabled and not saved. -/
theorem mobile_resource_size_limit_witness :
    (applyCreateOrUpdateLocal none "mobile" "createLocal"
      { id := "big", type_ := 4, sync_time := 0, updated_time := 9, created_time := 9,
        user_updated_time := 9, user_created_time := 9, encryption_applied := false,
        size := 120 * 1000 * 1000, title := "big file", share_id := "" }).savedContent = none ∧
    (applyCreateOrUpdateLocal none "mobile" "createLocal"
      { id := "big", type_ := 4, sync_time := 0, updated_time := 9, created_time := 9,
        user_updated_time := 9, user_created_time := 9, encryption_applied := false,
        size := 120 * 1000 * 1000, title := "big file", share_id := "" }).localStateSavedIdle = false ∧
    (applyCreateOrUpdateLocal none "mobile" "createLocal"
      { id := "big", type_ := 4, sync_time := 0, updated_time := 9, created_time := 9,
        user_updated_time := 9, user_created_time := 9, encryption_applied := false,
        size := 120 * 1000 * 1000, title := "big file", share_id := "" }).disabledReason =
      some (resourceSizeLimitReason "big file" (some (100 * 1000 * 1000))) := by
  have h := mobile_resource_size_limit.2.2.1 "createLocal"
    { id := "big", type_ := 4, sync_time := 0, updated_time := 9, created_time := 9,
      user_updated_time := 9, user_created_time := 9, encryption_applied := false,
      size := 120 * 1000 * 1000, title := "big file", share_id := "" }
    rfl (Or.inl rfl) (by decide)
  exact ⟨h.1, h.2.1, h.2.2.2⟩

end Joplin
